import Mathlib

/-!
Verification development for the lazor-kit-playground web application.

The repository is a thin client over an external smart-wallet SDK.  This file
gives a shallow embedding of the client-side logic that the specification
describes: the token-amount conversion (`src/lib/utils.ts`), the subscription
mandate create/execute handlers (`src/app/subscribe/page.tsx`), the gasless
transfer handler (`src/app/transfer/page.tsx`), and the wallet-details balance
fetch (`WalletDetailsPage`).

External SDK and network calls (`buildAuthorizationMessage`, the passkey
dialog's `openSignMessage`, `createChunkTxn`, `executeChunkTxn`, the
paymaster's `signAndSend`, `connection.getBalance`, `signAndSendTransaction`,
`new PublicKey(...)` parsing) are modelled as an environment record of
fallible responses (`Except`), and every handler additionally returns the
ordered list of calls it issued, so that sequencing and argument-threading
properties can be stated.  JavaScript numbers are idealized as exact
rationals; `toFixed(0)` is modelled as rounding to the nearest integer.
Record fields that a source object literal omits (e.g. no `passkeySignature`
key in the `executeChunkTxn` request) are modelled as `Option` fields set to
`none`.
-/

/-- A Solana public key: either a literal base58 address string, or the
associated-token-account address deterministically derived from a mint and an
owner (`getAssociatedTokenAddress` in `@solana/spl-token`). -/
inductive PubKey where
  | base58 (s : String)
  | ata (mint : PubKey) (owner : PubKey)
deriving DecidableEq, Repr

/-- Devnet USDC mint address, from `src/lib/constants.ts`. -/
def USDC_MINT : String := "4zMMC9srt5Ri5X14GAgXhaHii3GnPAEERYPJgZJDncDU"

/-- Merchant wallet address, from `src/lib/constants.ts`. -/
def MERCHANT_WALLET : String := "4iw7w6aME8sfpf1F1LP3EybyLrtbp7PF9TjBT6fhCKdB"

/-- Paymaster payer address, from `src/lib/constants.ts`. -/
def PAYMASTER_PAYER_KORA : String := "7Pkkhm8YeoBXFGKHTJXJ8ckdYiqtPdVWMefEVqK5vXed"

/-- Paymaster endpoint, from `src/lib/constants.ts`. -/
def PAYMASTER_URL : String := "https://kora.devnet.lazorkit.com"

/-- Portal (passkey dialog host) endpoint, from `src/lib/constants.ts`. -/
def PORTAL_URL : String := "https://lazor-kit-portal.vercel.app"

/-- RPC endpoint; at runtime this is the environment variable
`NEXT_PUBLIC_SOLANA_RPC_URL` (no claim depends on its value). -/
def RPC_URL : String := "NEXT_PUBLIC_SOLANA_RPC_URL"

/-- `toTokenAmount` from `src/lib/utils.ts`: converts a decimal token amount
to its smallest-unit integer representation.  Throws on a negative amount
(modelled as `Except.error`); the `decimals` non-negative-integer check is
carried by the type `ℕ`.  The JavaScript expression
`(amount * Math.pow(10, decimals)).toFixed(0)` is modelled as rounding
`amount * 10 ^ decimals` to the nearest integer. -/
def toTokenAmount (amount : ℚ) (decimals : ℕ) : Except String ℤ :=
  if amount < 0 then Except.error "Amount cannot be negative"
  else Except.ok (round (amount * (10 : ℚ) ^ decimals))

/-- A `createTransferCheckedInstruction` from `@solana/spl-token`, as
constructed by `createUsdcTransferIx`. -/
structure TransferCheckedIx where
  source : PubKey
  mint : PubKey
  dest : PubKey
  owner : PubKey
  amount : ℤ
  decimals : ℕ
deriving DecidableEq, Repr

/-- `getAssociatedTokenAddress`: a deterministic address derivation, modelled
by the `PubKey.ata` constructor. -/
def getAssociatedTokenAddress (mint owner : PubKey) : PubKey :=
  PubKey.ata mint owner

/-- `createUsdcTransferIx` from `src/lib/utils.ts`: builds a checked USDC
transfer instruction from the owner's associated token account to the
recipient's, for `toTokenAmount amount 6` base units with 6 decimals. -/
def createUsdcTransferIx (owner recipient : PubKey) (amount : ℚ) :
    Except String TransferCheckedIx := do
  let sourceAta := getAssociatedTokenAddress (PubKey.base58 USDC_MINT) owner
  let destAta := getAssociatedTokenAddress (PubKey.base58 USDC_MINT) recipient
  let amt ← toTokenAmount amount 6
  return { source := sourceAta, mint := PubKey.base58 USDC_MINT,
           dest := destAta, owner := owner, amount := amt, decimals := 6 }

/-- A subscription plan, from `src/lib/plans.ts`. -/
structure Plan where
  id : String
  label : String
  price : ℚ
  intervalDays : ℕ
deriving DecidableEq, Repr

/-- The static plan list, from `src/lib/plans.ts` (`0.05` as `1/20`). -/
def PLANS : List Plan :=
  [⟨"basic", "Basic", 1/20, 30⟩, ⟨"pro", "Pro", 10, 30⟩,
   ⟨"annual", "Annual", 100, 365⟩]

/-- `credentialHashFromBase64`: an opaque SDK hash of the credential id,
modelled symbolically. -/
inductive CredHash where
  | fromBase64 (credentialId : String)
deriving DecidableEq, Repr

/-- The result of the passkey dialog's `openSignMessage`. -/
structure SignResult where
  signature : String
  clientDataJsonBase64 : String
  authenticatorDataBase64 : String
deriving DecidableEq, Repr

/-- The passkey signature bundle assembled in `executeSubscriptionChunk`. -/
structure PasskeySignature where
  passkeyPublicKey : List ℕ
  signature64 : String
  clientDataJsonRaw64 : String
  authenticatorDataRaw64 : String
deriving DecidableEq, Repr

/-- `SmartWalletAction` tag (`CreateChunk` is the only one this app uses). -/
inductive SmartWalletAction where
  | createChunk
deriving DecidableEq, Repr

/-- The `args` of a `CreateChunk` action: the CPI instructions being
pre-authorized and the mandate expiration. -/
structure CreateChunkArgs where
  cpiInstructions : List TransferCheckedIx
  expiresAt : ℤ
deriving DecidableEq, Repr

/-- `SmartWalletActionArgs`: the action object passed to
`executeSubscriptionChunk` (a tag plus its argument record). -/
structure SmartWalletActionArgs where
  type : SmartWalletAction
  args : CreateChunkArgs
deriving DecidableEq, Repr

/-- The argument record of `lazorkitClient.buildAuthorizationMessage`. -/
structure AuthMessageArgs where
  action : SmartWalletActionArgs
  payer : PubKey
  smartWallet : PubKey
  passkeyPublicKey : List ℕ
  credentialHash : CredHash
  timestamp : ℤ
deriving DecidableEq, Repr

/-- The request record of `createChunkTxn` / `executeChunkTxn`.  Keys a
source object literal omits are `none`: the `executeChunkTxn` call site
supplies no `passkeySignature`, `credentialHash`, or `timestamp`. -/
structure ChunkTxnArgs where
  payer : PubKey
  smartWallet : PubKey
  passkeySignature : Option PasskeySignature
  credentialHash : Option CredHash
  cpiInstructions : List TransferCheckedIx
  timestamp : Option ℤ
deriving DecidableEq, Repr

/-- An unsigned/partially-built transaction returned by the SDK. -/
structure Txn where
  raw : String
deriving DecidableEq, Repr

/-- One SDK / network call issued by a handler, with its arguments. -/
inductive SdkEvent where
  | buildAuthorizationMessage (args : AuthMessageArgs)
  | openSignMessage (portalUrl rpcUrl paymasterUrl : String)
      (messageBase64 : String) (credentialId : String)
  | createChunkTxn (args : ChunkTxnArgs) (computeUnitLimit : ℕ)
  | executeChunkTxn (args : ChunkTxnArgs) (computeUnitLimit : ℕ)
  | paymasterSignAndSend (paymasterUrl : String) (txn : Txn)
deriving DecidableEq, Repr

/-- The step kind of an `SdkEvent`, for stating call order. -/
inductive EventKind where
  | buildAuth
  | openSign
  | createChunk
  | executeChunk
  | paymasterSend
deriving DecidableEq, Repr

/-- Kind of an event. -/
def eventKind : SdkEvent → EventKind
  | .buildAuthorizationMessage _ => .buildAuth
  | .openSignMessage _ _ _ _ _ => .openSign
  | .createChunkTxn _ _ => .createChunk
  | .executeChunkTxn _ _ => .executeChunk
  | .paymasterSignAndSend _ _ => .paymasterSend

/-- The `buildAuthorizationMessage` argument records appearing in a trace. -/
def authArgsOfTrace (t : List SdkEvent) : List AuthMessageArgs :=
  t.filterMap fun e =>
    match e with
    | .buildAuthorizationMessage a => some a
    | _ => none

/-- The `createChunkTxn` argument records appearing in a trace. -/
def createArgsOfTrace (t : List SdkEvent) : List ChunkTxnArgs :=
  t.filterMap fun e =>
    match e with
    | .createChunkTxn a _ => some a
    | _ => none

/-- The `executeChunkTxn` argument records appearing in a trace. -/
def executeArgsOfTrace (t : List SdkEvent) : List ChunkTxnArgs :=
  t.filterMap fun e =>
    match e with
    | .executeChunkTxn a _ => some a
    | _ => none

/-- The environment of external SDK / paymaster responses.  Each field is the
result an `await` of the corresponding call resolves (`ok`) or rejects
(`error`) with.  `buildAuthorizationMessage` resolves with the authorization
message already in its base64 rendering (`authMessage.toString("base64")`). -/
structure SdkEnv where
  buildAuthorizationMessage : AuthMessageArgs → Except String String
  openSignMessage : String → String → Except String SignResult
  createChunkTxn : ChunkTxnArgs → ℕ → Except String Txn
  executeChunkTxn : ChunkTxnArgs → ℕ → Except String Txn
  paymasterSignAndSend : String → Txn → Except String String

/-- The `buildAuthorizationMessage` argument record assembled at the start of
`executeSubscriptionChunk` (the timestamp is `Math.floor(Date.now() / 1000)`,
passed in as `now`). -/
def subAuthArgs (smartWallet : PubKey) (passkeyPublicKey : List ℕ)
    (credentialId : String) (payer : PubKey) (action : SmartWalletActionArgs)
    (now : ℤ) : AuthMessageArgs :=
  { action := action, payer := payer, smartWallet := smartWallet,
    passkeyPublicKey := passkeyPublicKey,
    credentialHash := CredHash.fromBase64 credentialId, timestamp := now }

/-- The passkey signature bundle `executeSubscriptionChunk` assembles from
the dialog's sign result. -/
def subPasskeySignature (passkeyPublicKey : List ℕ) (signResult : SignResult) :
    PasskeySignature :=
  { passkeyPublicKey := passkeyPublicKey,
    signature64 := signResult.signature,
    clientDataJsonRaw64 := signResult.clientDataJsonBase64,
    authenticatorDataRaw64 := signResult.authenticatorDataBase64 }

/-- The `createChunkTxn` request record assembled by
`executeSubscriptionChunk`: the same `action.args.cpiInstructions` and the
same `timestamp` that went into the authorization message. -/
def subChunkArgs (smartWallet : PubKey) (passkeyPublicKey : List ℕ)
    (credentialId : String) (payer : PubKey) (action : SmartWalletActionArgs)
    (now : ℤ) (signResult : SignResult) : ChunkTxnArgs :=
  { payer := payer, smartWallet := smartWallet,
    passkeySignature := some (subPasskeySignature passkeyPublicKey signResult),
    credentialHash := some (CredHash.fromBase64 credentialId),
    cpiInstructions := action.args.cpiInstructions,
    timestamp := some now }

/-- `executeSubscriptionChunk` from `src/app/subscribe/page.tsx` (lines
34–94): builds the authorization message, opens the passkey sign dialog,
requests the `createChunkTxn`, and hands the result to the paymaster's
`signAndSend`.  `now` is `Math.floor(Date.now() / 1000)`.  Returns the
ordered trace of SDK calls issued and the overall result; a rejection at any
step stops the sequence there. -/
def executeSubscriptionChunk (env : SdkEnv) (smartWallet : PubKey)
    (passkeyPublicKey : List ℕ) (credentialId : String) (payer : PubKey)
    (action : SmartWalletActionArgs) (now : ℤ) :
    List SdkEvent × Except String String :=
  let authArgs := subAuthArgs smartWallet passkeyPublicKey credentialId payer
      action now
  let ev1 := SdkEvent.buildAuthorizationMessage authArgs
  match env.buildAuthorizationMessage authArgs with
  | .error e => ([ev1], .error e)
  | .ok authMessage64 =>
    let ev2 := SdkEvent.openSignMessage PORTAL_URL RPC_URL PAYMASTER_URL
        authMessage64 credentialId
    match env.openSignMessage authMessage64 credentialId with
    | .error e => ([ev1, ev2], .error e)
    | .ok signResult =>
      let chunkArgs := subChunkArgs smartWallet passkeyPublicKey credentialId
          payer action now signResult
      let ev3 := SdkEvent.createChunkTxn chunkArgs 300000
      match env.createChunkTxn chunkArgs 300000 with
      | .error e => ([ev1, ev2, ev3], .error e)
      | .ok txn =>
        let ev4 := SdkEvent.paymasterSignAndSend PAYMASTER_URL txn
        ([ev1, ev2, ev3, ev4], env.paymasterSignAndSend PAYMASTER_URL txn)

/-- Per-plan UI state on the subscribe page (`planStates` entry).  A field an
object in the JavaScript record lacks reads as `undefined`, which the page
treats exactly like the defaults below, so the per-plan state is modelled as
a total record. -/
structure PlanState where
  mandateSignature : Option String
  showExecuteButton : Bool
  isCreatingMandate : Bool
  isExecuting : Bool
  expiresAt : Option ℤ
deriving DecidableEq, Repr

/-- The defaults the page substitutes for a missing per-plan entry
(`planStates[plan.id] || { ... }`). -/
def defaultPlanState : PlanState :=
  { mandateSignature := none, showExecuteButton := false,
    isCreatingMandate := false, isExecuting := false, expiresAt := none }

/-- The `planStates` record, as a total map from plan id to per-plan state
(missing entries read as `defaultPlanState`). -/
def PlanStates : Type := String → PlanState

/-- A `setPlanStates((prev) => ({ ...prev, [id]: { ...prev[id], ... } }))`
update: rewrite the entry at `id` by `f`, leave every other entry alone. -/
def setPlanState (ps : PlanStates) (id : String) (f : PlanState → PlanState) :
    PlanStates :=
  fun k => if k = id then f (ps k) else ps k

/-- The overall outcome of a subscribe-page handler run: the guard returned
early, the `catch` block ran with an error, or the handler completed with a
transaction signature. -/
inductive RunOutcome where
  | skipped
  | failed (e : String)
  | succeeded (sig : String)
deriving DecidableEq, Repr

/-- The observable effect of one subscribe-page handler run: the `planStates`
record after all immediate `setPlanStates` calls, any `setTimeout`-scheduled
updates (delay in milliseconds, paired with the state update the timer will
apply), the SDK calls issued, and the outcome. -/
structure MandateRun where
  planStates : PlanStates
  delayed : List (ℕ × (PlanStates → PlanStates))
  trace : List SdkEvent
  outcome : RunOutcome

/-- The `CreateChunk` action object `createMandate` passes to
`executeSubscriptionChunk`: the single USDC transfer instruction and the
computed expiration. -/
def mandateAction (usdcTransferIx : TransferCheckedIx) (expiresAt : ℤ) :
    SmartWalletActionArgs :=
  { type := .createChunk,
    args := { cpiInstructions := [usdcTransferIx], expiresAt := expiresAt } }

/-- `createMandate` from `src/app/subscribe/page.tsx` (lines 115–203).
`connected` stands for the `smartWalletPubkey && isConnected && wallet`
guard; `now` is the `new Date().getTime() / 1000` read used for the
expiration and `nowChunk` the later `Date.now() / 1000` read inside
`executeSubscriptionChunk`.  On success it records the signature and
expiration and schedules `showExecuteButton := true` after 10000 ms; on any
rejection the `catch` block only clears `isCreatingMandate`. -/
def createMandate (env : SdkEnv) (connected : Bool) (smartWalletPubkey : PubKey)
    (passkeyPubkey : List ℕ) (credentialId : String) (now nowChunk : ℤ)
    (ps : PlanStates) (plan : Plan) : MandateRun :=
  if connected then
    let ps1 := setPlanState ps plan.id fun s => { s with isCreatingMandate := true }
    let expirationTimestamp := now + 30 * 24 * 60 * 60
    match createUsdcTransferIx smartWalletPubkey (PubKey.base58 MERCHANT_WALLET)
        plan.price with
    | .error e =>
      { planStates := setPlanState ps1 plan.id
          fun s => { s with isCreatingMandate := false },
        delayed := [], trace := [], outcome := .failed e }
    | .ok usdcTransferIx =>
      let run := executeSubscriptionChunk env smartWalletPubkey passkeyPubkey
          credentialId (PubKey.base58 PAYMASTER_PAYER_KORA)
          (mandateAction usdcTransferIx expirationTimestamp) nowChunk
      match run.2 with
      | .error e =>
        { planStates := setPlanState ps1 plan.id
            fun s => { s with isCreatingMandate := false },
          delayed := [], trace := run.1, outcome := .failed e }
      | .ok sig =>
        { planStates := setPlanState ps1 plan.id
            fun s => { s with mandateSignature := some sig,
                              expiresAt := some expirationTimestamp,
                              isCreatingMandate := false },
          delayed := [(10000, fun q => setPlanState q plan.id
              fun s => { s with showExecuteButton := true })],
          trace := run.1, outcome := .succeeded sig }
  else
    { planStates := ps, delayed := [], trace := [], outcome := .skipped }

/-- The `executeChunkTxn` request record `executePayment` assembles: payer,
wallet and the rebuilt instruction only — the object literal has no
`passkeySignature`, `credentialHash`, or `timestamp` key. -/
def payChunkArgs (smartWalletPubkey : PubKey) (usdcTransferIx : TransferCheckedIx) :
    ChunkTxnArgs :=
  { payer := PubKey.base58 PAYMASTER_PAYER_KORA,
    smartWallet := smartWalletPubkey,
    passkeySignature := none, credentialHash := none,
    cpiInstructions := [usdcTransferIx], timestamp := none }

/-- `executePayment` from `src/app/subscribe/page.tsx` (lines 209–278):
rebuilds the USDC transfer instruction, asks the SDK for an
`executeChunkTxn` (no passkey signature in the request), and hands the
result to the paymaster's `signAndSend`.  On success it clears `isExecuting`
and stores the execution signature in `mandateSignature`; on rejection the
`catch` block only clears `isExecuting`. -/
def executePayment (env : SdkEnv) (connected : Bool) (smartWalletPubkey : PubKey)
    (ps : PlanStates) (plan : Plan) : MandateRun :=
  if connected then
    let ps1 := setPlanState ps plan.id fun s => { s with isExecuting := true }
    match createUsdcTransferIx smartWalletPubkey (PubKey.base58 MERCHANT_WALLET)
        plan.price with
    | .error e =>
      { planStates := setPlanState ps1 plan.id
          fun s => { s with isExecuting := false },
        delayed := [], trace := [], outcome := .failed e }
    | .ok usdcTransferIx =>
      let ev1 := SdkEvent.executeChunkTxn (payChunkArgs smartWalletPubkey
          usdcTransferIx) 300000
      match env.executeChunkTxn (payChunkArgs smartWalletPubkey usdcTransferIx)
          300000 with
      | .error e =>
        { planStates := setPlanState ps1 plan.id
            fun s => { s with isExecuting := false },
          delayed := [], trace := [ev1], outcome := .failed e }
      | .ok txn =>
        let ev2 := SdkEvent.paymasterSignAndSend PAYMASTER_URL txn
        match env.paymasterSignAndSend PAYMASTER_URL txn with
        | .error e =>
          { planStates := setPlanState ps1 plan.id
              fun s => { s with isExecuting := false },
            delayed := [], trace := [ev1, ev2], outcome := .failed e }
        | .ok sig =>
          { planStates := setPlanState ps1 plan.id
              fun s => { s with isExecuting := false,
                                mandateSignature := some sig },
            delayed := [], trace := [ev1, ev2], outcome := .succeeded sig }
  else
    { planStates := ps, delayed := [], trace := [], outcome := .skipped }

/-- The `status` state of the transfer page. -/
inductive TransferStatus where
  | idle
  | sending
  | success
  | error
deriving DecidableEq, Repr

/-- The transfer-page form and status state.  The amount input (an
`<input type="number">`) is `none` when the field is empty and `some v` when
it holds the decimal value `v`. -/
structure TransferState where
  recipient : String
  amount : Option ℚ
  status : TransferStatus
  errorMsg : Option String
  successMsg : Option String
  signature : Option String
deriving DecidableEq, Repr

/-- `LAMPORTS_PER_SOL` from `@solana/web3.js`. -/
def LAMPORTS_PER_SOL : ℚ := 1000000000

/-- JavaScript `Number(amount)` on the amount field: an empty input coerces
to `0`. -/
def jsNumber : Option ℚ → ℚ
  | none => 0
  | some v => v

/-- A `SystemProgram.transfer` instruction. -/
structure SystemTransferIx where
  fromPubkey : PubKey
  toPubkey : PubKey
  lamports : ℚ
deriving DecidableEq, Repr

/-- The `SystemProgram.transfer` instruction `handleSend` constructs:
`lamports = Number(amount) * LAMPORTS_PER_SOL`, from the smart wallet to the
parsed recipient. -/
def transferInstruction (smartWalletPubkey toPubkey : PubKey)
    (amount : Option ℚ) : SystemTransferIx :=
  { fromPubkey := smartWalletPubkey, toPubkey := toPubkey,
    lamports := jsNumber amount * LAMPORTS_PER_SOL }

/-- An observable step of `handleSend`: parsing the recipient string with
`new PublicKey(recipient)` (the start of instruction construction), or the
SDK call `signAndSendTransaction`. -/
inductive TransferEvent where
  | parseRecipient (recipient : String)
  | signAndSendTransaction (instructions : List SystemTransferIx)
deriving DecidableEq, Repr

/-- `handleSend` from `src/app/transfer/page.tsx` (lines 63–94).
`parsePublicKey` models the fallible `new PublicKey(recipient)` constructor
and `sdkSignAndSend` the SDK's `signAndSendTransaction`; both rejections are
caught by the `try`/`catch`.  Sets `status` to `sending` first, then
validates (`!recipient || !amount || Number(amount) <= 0`) and returns early
with only an error message on invalid input.  Returns the new state and the
ordered list of construction / SDK steps performed. -/
def handleSend (parsePublicKey : String → Except String PubKey)
    (sdkSignAndSend : List SystemTransferIx → Except String String)
    (smartWalletPubkey : PubKey) (s : TransferState) :
    TransferState × List TransferEvent :=
  let s1 := { s with status := TransferStatus.sending,
                     errorMsg := none, successMsg := none }
  if s.recipient = "" ∨ s.amount = none ∨ jsNumber s.amount ≤ 0 then
    ({ s1 with errorMsg := some "Enter valid recipient and amount" }, [])
  else
    match parsePublicKey s.recipient with
    | .error e =>
      ({ s1 with errorMsg := some e, status := TransferStatus.error },
       [TransferEvent.parseRecipient s.recipient])
    | .ok toPubkey =>
      match sdkSignAndSend [transferInstruction smartWalletPubkey toPubkey s.amount] with
      | .error e =>
        ({ s1 with errorMsg := some e, status := TransferStatus.error },
         [TransferEvent.parseRecipient s.recipient,
          TransferEvent.signAndSendTransaction
            [transferInstruction smartWalletPubkey toPubkey s.amount]])
      | .ok sig =>
        ({ s1 with signature := some sig,
                   successMsg := some "Transaction sent successfully!",
                   status := TransferStatus.success,
                   recipient := "", amount := none },
         [TransferEvent.parseRecipient s.recipient,
          TransferEvent.signAndSendTransaction
            [transferInstruction smartWalletPubkey toPubkey s.amount]])

/-- The Send button's `disabled` condition (`status === "sending"`, transfer
page line 147). -/
def sendButtonDisabled (s : TransferState) : Bool :=
  decide (s.status = TransferStatus.sending)

/-- The balance-related state of the wallet-details page. -/
structure DetailsState where
  balance : Option ℚ
  isLoadingBalance : Bool
deriving DecidableEq, Repr

/-- `fetchBalance` from the wallet-details page: awaits
`connection.getBalance` (result modelled by `r`), on success stores
`lamports / LAMPORTS_PER_SOL`, on rejection logs
`console.error("Failed to fetch balance:", err)` and leaves `balance`
untouched; the `finally` clears `isLoadingBalance` either way.  Returns the
new state and the console-error output. -/
def fetchBalance (r : Except String ℤ) (s : DetailsState) :
    DetailsState × List String :=
  match r with
  | .ok lamports =>
    ({ balance := some ((lamports : ℚ) / LAMPORTS_PER_SOL),
       isLoadingBalance := false }, [])
  | .error e =>
    ({ s with isLoadingBalance := false }, ["Failed to fetch balance:", e])

/-- What the SOL-balance line of the wallet-details page shows: the loading
text, or the balance text rendered from the stored balance (`none` renders
as the literal "undefined SOL").  The page has no other branch — in
particular no error display. -/
inductive BalanceDisplay where
  | loading
  | balanceText (b : Option ℚ)
deriving DecidableEq, Repr

/-- The SOL-balance line (`isLoadingBalance ? "Loading..." : ...`, details
page line 191). -/
def renderBalanceLine (s : DetailsState) : BalanceDisplay :=
  if s.isLoadingBalance then .loading else .balanceText s.balance

/-- React effect semantics for a dependency list `[isMounted]`: given the
previous render's dependency value and the sequence of per-render values,
whether the effect body runs at each render (it runs on the first render and
whenever the dependency changed). -/
def effectFirings : Option Bool → List Bool → List Bool
  | _, [] => []
  | prev, d :: ds => decide (prev ≠ some d) :: effectFirings (some d) ds

/-- Number of times the balance fetch actually runs over a render sequence:
the effect body fires per `effectFirings`, and the body calls `fetchBalance`
only when `smartWalletPubkey && isMounted` holds at that render. -/
def fetchInvocationCount (hasPubkey : Bool) (isMountedSeq : List Bool) : ℕ :=
  ((effectFirings none isMountedSeq).zip isMountedSeq).countP
    fun p => p.1 && (hasPubkey && p.2)

/-!  ### Concrete fixtures for witnesses -/

/-- A dialog sign result used by concrete environments. -/
def okSignResult : SignResult :=
  { signature := "sig64", clientDataJsonBase64 := "cdata64",
    authenticatorDataBase64 := "adata64" }

/-- An environment in which every SDK call resolves. -/
def okEnv : SdkEnv :=
  { buildAuthorizationMessage := fun _ => Except.ok "authmsg64",
    openSignMessage := fun _ _ => Except.ok okSignResult,
    createChunkTxn := fun _ _ => Except.ok { raw := "chunk-txn" },
    executeChunkTxn := fun _ _ => Except.ok { raw := "exec-txn" },
    paymasterSignAndSend := fun _ t => Except.ok (String.append "sent:" t.raw) }

/-- An environment in which the passkey dialog rejects (user cancels) and the
later calls would resolve. -/
def cancelEnv : SdkEnv :=
  { okEnv with openSignMessage := fun _ _ => Except.error "user closed dialog" }

/-- A concrete smart-wallet public key. -/
def wallet0 : PubKey := PubKey.base58 "wallet0pubkey"

/-- The basic plan from `src/lib/plans.ts`. -/
def basicPlan : Plan := { id := "basic", label := "Basic", price := 1/20,
                          intervalDays := 30 }

/-- A `planStates` record with no entries. -/
def emptyPlanStates : PlanStates := fun _ => defaultPlanState

/-- A `planStates` record in which the basic plan already holds a created
mandate (signature, expiration, visible execute button). -/
def subscribedPlanStates : PlanStates := fun k =>
  if k = "basic" then
    { mandateSignature := some "creation-sig", showExecuteButton := true,
      isCreatingMandate := false, isExecuting := false, expiresAt := some 2592100 }
  else defaultPlanState

/-- A `new PublicKey` model that accepts every string. -/
def parseAnyPubkey : String → Except String PubKey :=
  fun s => Except.ok (PubKey.base58 s)

/-- An SDK `signAndSendTransaction` that resolves with a fixed signature. -/
def sendOk : List SystemTransferIx → Except String String :=
  fun _ => Except.ok "transfer-sig"

/-- A transfer form state with an empty recipient and a positive amount. -/
def emptyRecipientState : TransferState :=
  { recipient := "", amount := some 1, status := TransferStatus.idle,
    errorMsg := none, successMsg := none, signature := none }

/-- A transfer form state with a malformed (but non-empty) recipient and a
positive amount. -/
def badAddressState : TransferState :=
  { recipient := "not-a-base58-address", amount := some 1,
    status := TransferStatus.idle, errorMsg := none, successMsg := none,
    signature := none }

/-- A transfer form state with a non-positive amount. -/
def negativeAmountState : TransferState :=
  { recipient := "somerecipient", amount := some (-2),
    status := TransferStatus.idle, errorMsg := none, successMsg := none,
    signature := none }

/-!  ### Claims -/

/-- C4: for every positive decimal amount `a` and non-negative integer
precision `d`, `toTokenAmount a d` succeeds and dividing the resulting
smallest-unit integer by `10 ^ d` recovers `a` within the rounding tolerance
of half a smallest unit. -/
theorem toTokenAmount_roundtrip (a : ℚ) (d : ℕ) (ha : 0 < a) :
    ∃ n : ℤ, toTokenAmount a d = Except.ok n ∧
      |(n : ℚ) / 10 ^ d - a| ≤ 1 / (2 * 10 ^ d) := by
  refine ⟨round (a * (10 : ℚ) ^ d), ?_, ?_⟩
  · rw [toTokenAmount, if_neg (not_lt.2 ha.le)]
  · have hpow : (0 : ℚ) < 10 ^ d := by positivity
    have h := abs_sub_round (a * (10 : ℚ) ^ d)
    rw [abs_sub_comm] at h
    have hrw : (round (a * (10 : ℚ) ^ d) : ℚ) / 10 ^ d - a
        = ((round (a * (10 : ℚ) ^ d) : ℚ) - a * 10 ^ d) / 10 ^ d := by
      field_simp
      ring
    rw [hrw, abs_div, abs_of_pos hpow, div_le_div_iff hpow (by positivity)]
    calc |(round (a * (10 : ℚ) ^ d) : ℚ) - a * 10 ^ d| * (2 * 10 ^ d)
        ≤ (1 / 2) * (2 * 10 ^ d) := by
          exact mul_le_mul_of_nonneg_right h (by positivity)
      _ = 1 * 10 ^ d := by ring

/-- Witness for C4 at the basic plan price `a = 1/20`, `d = 6` (USDC). -/
theorem toTokenAmount_roundtrip_witness :
    (0 : ℚ) < 1/20 ∧ ∃ n : ℤ, toTokenAmount (1/20) 6 = Except.ok n ∧
      |(n : ℚ) / 10 ^ 6 - 1/20| ≤ 1 / (2 * 10 ^ 6) :=
  ⟨by norm_num, toTokenAmount_roundtrip (1/20) 6 (by norm_num)⟩

/-- C7: a transfer submission with an empty recipient or a non-positive
amount is rejected locally — `handleSend` sets the error message and returns
with an empty step list, so neither instruction construction
(`new PublicKey`) nor the SDK's `signAndSendTransaction` happens; and for
any non-empty recipient with a positive amount, however malformed the
recipient string, the very first step is recipient parsing — no
well-formedness check precedes instruction construction. -/
theorem handleSend_local_validation
    (parsePublicKey : String → Except String PubKey)
    (sdkSignAndSend : List SystemTransferIx → Except String String)
    (w : PubKey) (s : TransferState) :
    (s.recipient = "" ∨ jsNumber s.amount ≤ 0 →
      (handleSend parsePublicKey sdkSignAndSend w s).2 = [] ∧
      (handleSend parsePublicKey sdkSignAndSend w s).1.errorMsg =
        some "Enter valid recipient and amount") ∧
    (s.recipient ≠ "" → s.amount ≠ none → 0 < jsNumber s.amount →
      ((handleSend parsePublicKey sdkSignAndSend w s).2).head? =
        some (TransferEvent.parseRecipient s.recipient)) := by
  constructor
  · intro h
    have hcond : s.recipient = "" ∨ s.amount = none ∨ jsNumber s.amount ≤ 0 := by
      rcases h with h | h
      · exact Or.inl h
      · exact Or.inr (Or.inr h)
    rw [handleSend, if_pos hcond]
    exact ⟨rfl, rfl⟩
  · intro h1 h2 h3
    have hcond : ¬(s.recipient = "" ∨ s.amount = none ∨ jsNumber s.amount ≤ 0) := by
      push_neg
      exact ⟨h1, h2, h3⟩
    rw [handleSend, if_neg hcond]
    cases hp : parsePublicKey s.recipient with
    | error e => rfl
    | ok toPubkey =>
      dsimp only
      cases hs : sdkSignAndSend [transferInstruction w toPubkey s.amount] with
      | error e => rfl
      | ok sig => rfl

/-- Witness for C7: the theorem applied to the empty-recipient state (early
local rejection, no steps) and to a malformed non-empty recipient (parsing
is the first step — no prior well-formedness check). -/
theorem handleSend_local_validation_witness :
    ((handleSend parseAnyPubkey sendOk wallet0 emptyRecipientState).2 = [] ∧
      (handleSend parseAnyPubkey sendOk wallet0 emptyRecipientState).1.errorMsg =
        some "Enter valid recipient and amount") ∧
    ((handleSend parseAnyPubkey sendOk wallet0 badAddressState).2).head? =
      some (TransferEvent.parseRecipient "not-a-base58-address") :=
  ⟨(handleSend_local_validation parseAnyPubkey sendOk wallet0
      emptyRecipientState).1 (Or.inl rfl),
   (handleSend_local_validation parseAnyPubkey sendOk wallet0
      badAddressState).2 (by decide) (by decide) (by norm_num [jsNumber, badAddressState])⟩

/-- C10: on the early-return validation path of `handleSend` (empty
recipient or non-positive amount), `status` was already set to `sending`
before validation and is never reset, so afterwards the status is still
`sending`, the Send button stays disabled, and the error message is
displayed. -/
theorem handleSend_sending_stuck
    (parsePublicKey : String → Except String PubKey)
    (sdkSignAndSend : List SystemTransferIx → Except String String)
    (w : PubKey) (s : TransferState)
    (h : s.recipient = "" ∨ jsNumber s.amount ≤ 0) :
    (handleSend parsePublicKey sdkSignAndSend w s).1.status =
      TransferStatus.sending ∧
    sendButtonDisabled (handleSend parsePublicKey sdkSignAndSend w s).1 = true ∧
    (handleSend parsePublicKey sdkSignAndSend w s).1.errorMsg =
      some "Enter valid recipient and amount" := by
  have hcond : s.recipient = "" ∨ s.amount = none ∨ jsNumber s.amount ≤ 0 := by
    rcases h with h | h
    · exact Or.inl h
    · exact Or.inr (Or.inr h)
  rw [handleSend, if_pos hcond]
  refine ⟨rfl, ?_, rfl⟩
  rw [sendButtonDisabled]
  exact decide_eq_true rfl

/-- Witness for C10 at a non-positive amount: the status stays `sending` and
the button stays disabled after the local rejection. -/
theorem handleSend_sending_stuck_witness :
    (handleSend parseAnyPubkey sendOk wallet0 negativeAmountState).1.status =
      TransferStatus.sending ∧
    sendButtonDisabled
      (handleSend parseAnyPubkey sendOk wallet0 negativeAmountState).1 = true ∧
    (handleSend parseAnyPubkey sendOk wallet0 negativeAmountState).1.errorMsg =
      some "Enter valid recipient and amount" :=
  handleSend_sending_stuck parseAnyPubkey sendOk wallet0 negativeAmountState
    (Or.inr (by norm_num [jsNumber, negativeAmountState]))

/-- Helper: once the `[isMounted]` dependency has settled at `true`, further
re-renders never fire the balance effect again. -/
theorem effectFirings_settled (k : ℕ) :
    effectFirings (some true) (List.replicate k true) = List.replicate k false := by
  induction k with
  | zero => rfl
  | succ m ih => simp [List.replicate_succ, effectFirings, ih]

/-- Helper: the settled renders contribute no balance fetch. -/
theorem countP_settled (k : ℕ) :
    ((List.replicate k false).zip (List.replicate k true)).countP
      (fun p => p.1 && (true && p.2)) = 0 := by
  induction k with
  | zero => rfl
  | succ m ih => simpa [List.replicate_succ, List.countP_cons] using ih

/-- C8: when the wallet-details balance fetch fails, the rejection is caught
and logged, the stored balance is left stale (and the loading flag merely
cleared), the page's balance line can only ever show the loading text or the
stale balance text — there is no error display a user could distinguish —
and over a whole mount lifecycle (`isMounted` false on first render, then
true on every re-render) the effect fires the fetch exactly once, so a
failed fetch is never retried. -/
theorem balanceFetch_failure_stale :
    (∀ e s, fetchBalance (Except.error e) s =
      ({ s with isLoadingBalance := false }, ["Failed to fetch balance:", e])) ∧
    (∀ s, renderBalanceLine s = BalanceDisplay.loading ∨
      renderBalanceLine s = BalanceDisplay.balanceText s.balance) ∧
    (∀ n, fetchInvocationCount true (false :: List.replicate (n + 1) true) = 1) := by
  refine ⟨fun e s => rfl, fun s => ?_, fun n => ?_⟩
  · rw [renderBalanceLine]
    by_cases h : s.isLoadingBalance = true
    · rw [if_pos h]
      exact Or.inl rfl
    · rw [if_neg h]
      exact Or.inr rfl
  · simp [fetchInvocationCount, effectFirings, List.replicate_succ,
      List.countP_cons, effectFirings_settled, countP_settled]

/-- C1: every run of `executeSubscriptionChunk` performs its steps strictly
in order — `buildAuthorizationMessage`, then the dialog's `openSignMessage`,
then `createChunkTxn`, then the paymaster's `signAndSend` (the trace of call
kinds is a prefix of that sequence, and the full sequence when the run
returns a signature) — and the `cpiInstructions` and `timestamp` fields of
any `createChunkTxn` request in the trace are exactly the values bound into
the authorization message built in the earlier step. -/
theorem executeSubscriptionChunk_protocol (env : SdkEnv) (w : PubKey)
    (pk : List ℕ) (cid : String) (payer : PubKey)
    (action : SmartWalletActionArgs) (now : ℤ) :
    ((executeSubscriptionChunk env w pk cid payer action now).1.map eventKind <+:
      [EventKind.buildAuth, EventKind.openSign, EventKind.createChunk,
       EventKind.paymasterSend]) ∧
    (∀ sig, (executeSubscriptionChunk env w pk cid payer action now).2 =
        Except.ok sig →
      (executeSubscriptionChunk env w pk cid payer action now).1.map eventKind =
        [EventKind.buildAuth, EventKind.openSign, EventKind.createChunk,
         EventKind.paymasterSend]) ∧
    (∀ a ∈ authArgsOfTrace (executeSubscriptionChunk env w pk cid payer action now).1,
      ∀ c ∈ createArgsOfTrace (executeSubscriptionChunk env w pk cid payer action now).1,
        c.cpiInstructions = a.action.args.cpiInstructions ∧
        c.timestamp = some a.timestamp) := by
  simp only [executeSubscriptionChunk]
  cases h1 : env.buildAuthorizationMessage (subAuthArgs w pk cid payer action now) with
  | error e =>
    refine ⟨⟨[EventKind.openSign, EventKind.createChunk, EventKind.paymasterSend],
        rfl⟩, ?_, ?_⟩
    · intro sig hsig
      simp at hsig
    · intro a ha c hc
      simp [createArgsOfTrace] at hc
  | ok m =>
    dsimp only
    cases h2 : env.openSignMessage m cid with
    | error e =>
      refine ⟨⟨[EventKind.createChunk, EventKind.paymasterSend], rfl⟩, ?_, ?_⟩
      · intro sig hsig
        simp at hsig
      · intro a ha c hc
        simp [createArgsOfTrace] at hc
    | ok sr =>
      dsimp only
      cases h3 : env.createChunkTxn (subChunkArgs w pk cid payer action now sr)
          300000 with
      | error e =>
        refine ⟨⟨[EventKind.paymasterSend], rfl⟩, ?_, ?_⟩
        · intro sig hsig
          simp at hsig
        · intro a ha c hc
          simp [authArgsOfTrace] at ha
          simp [createArgsOfTrace] at hc
          subst ha
          subst hc
          exact ⟨rfl, rfl⟩
      | ok txn =>
        dsimp only
        refine ⟨⟨[], rfl⟩, fun sig hsig => rfl, ?_⟩
        intro a ha c hc
        simp [authArgsOfTrace] at ha
        simp [createArgsOfTrace] at hc
        subst ha
        subst hc
        exact ⟨rfl, rfl⟩

/-- A concrete USDC transfer instruction (the basic plan's transfer from
`wallet0` to the merchant: `0.05 * 10 ^ 6 = 50000` base units). -/
def sampleIx : TransferCheckedIx :=
  { source := PubKey.ata (PubKey.base58 USDC_MINT) wallet0,
    mint := PubKey.base58 USDC_MINT,
    dest := PubKey.ata (PubKey.base58 USDC_MINT) (PubKey.base58 MERCHANT_WALLET),
    owner := wallet0, amount := 50000, decimals := 6 }

/-- A concrete `CreateChunk` action over `sampleIx`. -/
def sampleAction : SmartWalletActionArgs := mandateAction sampleIx 2593000

/-- The paymaster payer key used at both subscribe-page call sites. -/
def koraPayer : PubKey := PubKey.base58 PAYMASTER_PAYER_KORA

/-- Witness for C1: a concrete all-resolving run; the trace of kinds is a
prefix of the protocol order, and the concrete `createChunkTxn` request in
that trace carries exactly the `cpiInstructions` and `timestamp` of the
concrete authorization message. -/
theorem executeSubscriptionChunk_protocol_witness :
    ((executeSubscriptionChunk okEnv wallet0 [1, 2] "cred-id" koraPayer
        sampleAction 1000).1.map eventKind <+:
      [EventKind.buildAuth, EventKind.openSign, EventKind.createChunk,
       EventKind.paymasterSend]) ∧
    ((subChunkArgs wallet0 [1, 2] "cred-id" koraPayer sampleAction 1000
        okSignResult).cpiInstructions =
      (subAuthArgs wallet0 [1, 2] "cred-id" koraPayer sampleAction
        1000).action.args.cpiInstructions ∧
     (subChunkArgs wallet0 [1, 2] "cred-id" koraPayer sampleAction 1000
        okSignResult).timestamp =
      some (subAuthArgs wallet0 [1, 2] "cred-id" koraPayer sampleAction
        1000).timestamp) :=
  ⟨(executeSubscriptionChunk_protocol okEnv wallet0 [1, 2] "cred-id" koraPayer
      sampleAction 1000).1,
   (executeSubscriptionChunk_protocol okEnv wallet0 [1, 2] "cred-id" koraPayer
      sampleAction 1000).2.2 _ (by decide) _ (by decide)⟩

/-- Fixture evaluation: the basic-plan USDC instruction from `wallet0` is
`sampleIx` (`0.05` USDC = 50000 base units). -/
theorem createUsdcTransferIx_basic :
    createUsdcTransferIx wallet0 (PubKey.base58 MERCHANT_WALLET) (1/20) =
      Except.ok sampleIx := by
  have h : toTokenAmount (20⁻¹ : ℚ) 6 = Except.ok 50000 := by
    rw [toTokenAmount, if_neg (by norm_num)]
    norm_num [round_eq]
  simp [createUsdcTransferIx, h, getAssociatedTokenAddress, sampleIx, wallet0,
    Except.map]

/-- C5: if a `createMandate` run fails (any awaited step rejects), the
per-plan state afterwards has `isCreatingMandate` cleared while
`mandateSignature`, `expiresAt`, and `showExecuteButton` keep the values
they had before the run, no delayed update is scheduled, and every other
plan's state is untouched — no partial mandate state is recorded. -/
theorem createMandate_failure_no_partial_state (env : SdkEnv) (w : PubKey)
    (pk : List ℕ) (cid : String) (now nowChunk : ℤ) (ps : PlanStates)
    (plan : Plan) (e : String)
    (h : (createMandate env true w pk cid now nowChunk ps plan).outcome =
      RunOutcome.failed e) :
    ((createMandate env true w pk cid now nowChunk ps plan).planStates
        plan.id).isCreatingMandate = false ∧
    ((createMandate env true w pk cid now nowChunk ps plan).planStates
        plan.id).mandateSignature = (ps plan.id).mandateSignature ∧
    ((createMandate env true w pk cid now nowChunk ps plan).planStates
        plan.id).expiresAt = (ps plan.id).expiresAt ∧
    ((createMandate env true w pk cid now nowChunk ps plan).planStates
        plan.id).showExecuteButton = (ps plan.id).showExecuteButton ∧
    (createMandate env true w pk cid now nowChunk ps plan).delayed = [] ∧
    (∀ k, k ≠ plan.id →
      (createMandate env true w pk cid now nowChunk ps plan).planStates k =
        ps k) := by
  simp only [createMandate, eq_self_iff_true, not_true, if_true] at h ⊢
  cases hix : createUsdcTransferIx w (PubKey.base58 MERCHANT_WALLET)
      plan.price with
  | error e2 =>
    simp only [hix] at h ⊢
    simp [setPlanState]
    intro k hk
    simp [hk]
  | ok ix =>
    simp only [hix] at h ⊢
    cases hr : (executeSubscriptionChunk env w pk cid
        (PubKey.base58 PAYMASTER_PAYER_KORA)
        (mandateAction ix (now + 30 * 24 * 60 * 60)) nowChunk).2 with
    | error e2 =>
      simp only [hr] at h ⊢
      simp [setPlanState]
      intro k hk
      simp [hk]
    | ok sig =>
      simp only [hr] at h
      simp at h

/-- Fixture evaluation: with the dialog rejecting, the concrete
`createMandate` run fails with the dialog's error. -/
theorem createMandate_cancel_eval :
    (createMandate cancelEnv true wallet0 [1, 2] "cred-id" 1000 1001
        subscribedPlanStates basicPlan).outcome =
      RunOutcome.failed "user closed dialog" := by
  have hb : createUsdcTransferIx wallet0 (PubKey.base58 MERCHANT_WALLET)
      basicPlan.price = Except.ok sampleIx := createUsdcTransferIx_basic
  simp only [createMandate, eq_self_iff_true, not_true, if_true, hb]
  rfl

/-- Witness for C5: a concrete cancelled run over a state that already held
a mandate for the basic plan — the stored signature, expiration, and execute
flag survive unchanged, the in-flight flag is cleared, and nothing is
scheduled. -/
theorem createMandate_failure_no_partial_state_witness :
    ((createMandate cancelEnv true wallet0 [1, 2] "cred-id" 1000 1001
        subscribedPlanStates basicPlan).planStates
        "basic").isCreatingMandate = false ∧
    ((createMandate cancelEnv true wallet0 [1, 2] "cred-id" 1000 1001
        subscribedPlanStates basicPlan).planStates
        "basic").mandateSignature = some "creation-sig" ∧
    ((createMandate cancelEnv true wallet0 [1, 2] "cred-id" 1000 1001
        subscribedPlanStates basicPlan).planStates
        "basic").expiresAt = some 2592100 ∧
    ((createMandate cancelEnv true wallet0 [1, 2] "cred-id" 1000 1001
        subscribedPlanStates basicPlan).planStates
        "basic").showExecuteButton = true ∧
    (createMandate cancelEnv true wallet0 [1, 2] "cred-id" 1000 1001
        subscribedPlanStates basicPlan).delayed = [] := by
  have happ := createMandate_failure_no_partial_state cancelEnv wallet0 [1, 2]
      "cred-id" 1000 1001 subscribedPlanStates basicPlan "user closed dialog"
      createMandate_cancel_eval
  refine ⟨happ.1, happ.2.1.trans ?_, happ.2.2.1.trans ?_,
      happ.2.2.2.1.trans ?_, happ.2.2.2.2.1⟩ <;>
    simp [subscribedPlanStates, basicPlan]

/-- Helper: a completed `executeSubscriptionChunk` run (result `ok`) issued
exactly the four protocol calls in order. -/
theorem executeSubscriptionChunk_ok_trace (env : SdkEnv) (w : PubKey)
    (pk : List ℕ) (cid : String) (payer : PubKey)
    (action : SmartWalletActionArgs) (now : ℤ) (sig : String)
    (h : (executeSubscriptionChunk env w pk cid payer action now).2 =
      Except.ok sig) :
    (executeSubscriptionChunk env w pk cid payer action now).1.map eventKind =
      [EventKind.buildAuth, EventKind.openSign, EventKind.createChunk,
       EventKind.paymasterSend] := by
  simp only [executeSubscriptionChunk] at h ⊢
  cases h1 : env.buildAuthorizationMessage (subAuthArgs w pk cid payer action now) with
  | error e => simp [h1] at h
  | ok m =>
    simp only [h1] at h ⊢
    cases h2 : env.openSignMessage m cid with
    | error e => simp [h2] at h
    | ok sr =>
      simp only [h2] at h ⊢
      cases h3 : env.createChunkTxn (subChunkArgs w pk cid payer action now sr)
          300000 with
      | error e => simp [h3] at h
      | ok txn => simp [h3, eventKind]

/-- Helper: any authorization-message record in an
`executeSubscriptionChunk` trace is the one built from the run's inputs. -/
theorem executeSubscriptionChunk_authArgs (env : SdkEnv) (w : PubKey)
    (pk : List ℕ) (cid : String) (payer : PubKey)
    (action : SmartWalletActionArgs) (now : ℤ) (a : AuthMessageArgs)
    (ha : a ∈ authArgsOfTrace
      (executeSubscriptionChunk env w pk cid payer action now).1) :
    a = subAuthArgs w pk cid payer action now := by
  simp only [executeSubscriptionChunk] at ha
  cases h1 : env.buildAuthorizationMessage (subAuthArgs w pk cid payer action now) with
  | error e =>
    simp only [h1] at ha
    simpa [authArgsOfTrace] using ha
  | ok m =>
    simp only [h1] at ha
    cases h2 : env.openSignMessage m cid with
    | error e =>
      simp only [h2] at ha
      simpa [authArgsOfTrace] using ha
    | ok sr =>
      simp only [h2] at ha
      cases h3 : env.createChunkTxn (subChunkArgs w pk cid payer action now sr)
          300000 with
      | error e =>
        simp only [h3] at ha
        simpa [authArgsOfTrace] using ha
      | ok txn =>
        simp only [h3] at ha
        simpa [authArgsOfTrace] using ha

/-- Helper: any `createChunkTxn` request in an `executeSubscriptionChunk`
trace carries the action's own `cpiInstructions` and the run timestamp. -/
theorem executeSubscriptionChunk_createArgs (env : SdkEnv) (w : PubKey)
    (pk : List ℕ) (cid : String) (payer : PubKey)
    (action : SmartWalletActionArgs) (now : ℤ) (c : ChunkTxnArgs)
    (hc : c ∈ createArgsOfTrace
      (executeSubscriptionChunk env w pk cid payer action now).1) :
    c.cpiInstructions = action.args.cpiInstructions ∧
      c.timestamp = some now := by
  simp only [executeSubscriptionChunk] at hc
  cases h1 : env.buildAuthorizationMessage (subAuthArgs w pk cid payer action now) with
  | error e =>
    simp only [h1] at hc
    simp [createArgsOfTrace] at hc
  | ok m =>
    simp only [h1] at hc
    cases h2 : env.openSignMessage m cid with
    | error e =>
      simp only [h2] at hc
      simp [createArgsOfTrace] at hc
    | ok sr =>
      simp only [h2] at hc
      cases h3 : env.createChunkTxn (subChunkArgs w pk cid payer action now sr)
          300000 with
      | error e =>
        simp only [h3] at hc
        simp [createArgsOfTrace] at hc
        subst hc
        exact ⟨rfl, rfl⟩
      | ok txn =>
        simp only [h3] at hc
        simp [createArgsOfTrace] at hc
        subst hc
        exact ⟨rfl, rfl⟩

/-- C6: when `createMandate` succeeds, the per-plan state immediately holds
the returned signature and the computed expiration with the in-flight flag
cleared and `showExecuteButton` untouched; the only scheduled update is a
fixed 10000 ms timer that merely reveals the execute button for that plan;
and the SDK calls issued are exactly the four protocol steps — nothing after
the paymaster send, so no confirmation check is performed. -/
theorem createMandate_success_state (env : SdkEnv) (w : PubKey) (pk : List ℕ)
    (cid : String) (now nowChunk : ℤ) (ps : PlanStates) (plan : Plan)
    (sig : String)
    (h : (createMandate env true w pk cid now nowChunk ps plan).outcome =
      RunOutcome.succeeded sig) :
    (createMandate env true w pk cid now nowChunk ps plan).planStates plan.id =
      { ps plan.id with mandateSignature := some sig,
                        expiresAt := some (now + 2592000),
                        isCreatingMandate := false } ∧
    ((createMandate env true w pk cid now nowChunk ps plan).planStates
        plan.id).showExecuteButton = (ps plan.id).showExecuteButton ∧
    (∃ f, (createMandate env true w pk cid now nowChunk ps plan).delayed =
        [(10000, f)] ∧
      ∀ q : PlanStates, f q plan.id =
          { q plan.id with showExecuteButton := true } ∧
        ∀ k, k ≠ plan.id → f q k = q k) ∧
    (createMandate env true w pk cid now nowChunk ps plan).trace.map
        eventKind =
      [EventKind.buildAuth, EventKind.openSign, EventKind.createChunk,
       EventKind.paymasterSend] := by
  simp only [createMandate, eq_self_iff_true, not_true, if_true] at h ⊢
  cases hix : createUsdcTransferIx w (PubKey.base58 MERCHANT_WALLET)
      plan.price with
  | error e =>
    simp only [hix] at h
    simp at h
  | ok ix =>
    simp only [hix] at h ⊢
    cases hr : (executeSubscriptionChunk env w pk cid
        (PubKey.base58 PAYMASTER_PAYER_KORA)
        (mandateAction ix (now + 30 * 24 * 60 * 60)) nowChunk).2 with
    | error e =>
      simp only [hr] at h
      simp at h
    | ok sig2 =>
      simp only [hr] at h ⊢
      simp only [RunOutcome.succeeded.injEq] at h
      subst h
      refine ⟨?_, ?_, ?_, ?_⟩
      · simp [setPlanState]
      · simp [setPlanState]
      · refine ⟨fun q => setPlanState q plan.id
            fun s => { s with showExecuteButton := true }, rfl, fun q => ?_⟩
        constructor
        · simp [setPlanState]
        · intro k hk
          simp [setPlanState, hk]
      · exact executeSubscriptionChunk_ok_trace env w pk cid
          (PubKey.base58 PAYMASTER_PAYER_KORA)
          (mandateAction ix (now + 30 * 24 * 60 * 60)) nowChunk sig2 hr

/-- Fixture evaluation: the all-resolving concrete `createMandate` run
succeeds with the paymaster's signature. -/
theorem createMandate_ok_outcome_eval :
    (createMandate okEnv true wallet0 [1, 2] "cred-id" 1000 1001
        emptyPlanStates basicPlan).outcome =
      RunOutcome.succeeded "sent:chunk-txn" := by
  have hb : createUsdcTransferIx wallet0 (PubKey.base58 MERCHANT_WALLET)
      basicPlan.price = Except.ok sampleIx := createUsdcTransferIx_basic
  simp only [createMandate, eq_self_iff_true, not_true, if_true, hb]
  rfl

/-- Fixture evaluation: the SDK calls of the all-resolving concrete
`createMandate` run. -/
theorem createMandate_ok_trace_eval :
    (createMandate okEnv true wallet0 [1, 2] "cred-id" 1000 1001
        emptyPlanStates basicPlan).trace =
      [SdkEvent.buildAuthorizationMessage (subAuthArgs wallet0 [1, 2] "cred-id"
          koraPayer (mandateAction sampleIx 2593000) 1001),
       SdkEvent.openSignMessage PORTAL_URL RPC_URL PAYMASTER_URL "authmsg64"
          "cred-id",
       SdkEvent.createChunkTxn (subChunkArgs wallet0 [1, 2] "cred-id" koraPayer
          (mandateAction sampleIx 2593000) 1001 okSignResult) 300000,
       SdkEvent.paymasterSignAndSend PAYMASTER_URL { raw := "chunk-txn" }] := by
  have hb : createUsdcTransferIx wallet0 (PubKey.base58 MERCHANT_WALLET)
      basicPlan.price = Except.ok sampleIx := createUsdcTransferIx_basic
  simp only [createMandate, eq_self_iff_true, not_true, if_true, hb]
  rfl

/-- Witness for C6: the concrete successful run stores the signature and
expiration immediately, leaves the execute button hidden, and issued exactly
the four protocol calls. -/
theorem createMandate_success_state_witness :
    (createMandate okEnv true wallet0 [1, 2] "cred-id" 1000 1001
        emptyPlanStates basicPlan).planStates basicPlan.id =
      { emptyPlanStates basicPlan.id with
          mandateSignature := some "sent:chunk-txn",
          expiresAt := some (1000 + 2592000),
          isCreatingMandate := false } ∧
    ((createMandate okEnv true wallet0 [1, 2] "cred-id" 1000 1001
        emptyPlanStates basicPlan).planStates basicPlan.id).showExecuteButton =
      (emptyPlanStates basicPlan.id).showExecuteButton ∧
    (createMandate okEnv true wallet0 [1, 2] "cred-id" 1000 1001
        emptyPlanStates basicPlan).trace.map eventKind =
      [EventKind.buildAuth, EventKind.openSign, EventKind.createChunk,
       EventKind.paymasterSend] := by
  have happ := createMandate_success_state okEnv wallet0 [1, 2] "cred-id"
      1000 1001 emptyPlanStates basicPlan "sent:chunk-txn"
      createMandate_ok_outcome_eval
  exact ⟨happ.1, happ.2.1, happ.2.2.2⟩

/-- C3: the mandate expiration never depends on the plan's billing interval:
a `createMandate` run is unchanged under any `intervalDays` value, the
expiration bound into the authorization action is always exactly
`now + 2592000` (thirty days in seconds), and on success that same value is
what gets stored as the plan's expiration. -/
theorem createMandate_expiration_thirty_days (env : SdkEnv) (w : PubKey)
    (pk : List ℕ) (cid : String) (now nowChunk : ℤ) (ps : PlanStates)
    (plan : Plan) :
    (∀ k, createMandate env true w pk cid now nowChunk ps
        { plan with intervalDays := k } =
      createMandate env true w pk cid now nowChunk ps plan) ∧
    (∀ a ∈ authArgsOfTrace
        (createMandate env true w pk cid now nowChunk ps plan).trace,
      a.action.args.expiresAt = now + 2592000) ∧
    (∀ sig, (createMandate env true w pk cid now nowChunk ps plan).outcome =
        RunOutcome.succeeded sig →
      ((createMandate env true w pk cid now nowChunk ps plan).planStates
          plan.id).expiresAt = some (now + 2592000)) := by
  refine ⟨fun k => rfl, ?_, ?_⟩
  · intro a ha
    simp only [createMandate, eq_self_iff_true, not_true, if_true] at ha
    cases hix : createUsdcTransferIx w (PubKey.base58 MERCHANT_WALLET)
        plan.price with
    | error e =>
      simp only [hix] at ha
      simp [authArgsOfTrace] at ha
    | ok ix =>
      simp only [hix] at ha
      cases hr : (executeSubscriptionChunk env w pk cid
          (PubKey.base58 PAYMASTER_PAYER_KORA)
          (mandateAction ix (now + 30 * 24 * 60 * 60)) nowChunk).2 with
      | error e =>
        simp only [hr] at ha
        have ha2 := executeSubscriptionChunk_authArgs env w pk cid
            (PubKey.base58 PAYMASTER_PAYER_KORA)
            (mandateAction ix (now + 30 * 24 * 60 * 60)) nowChunk a ha
        subst ha2
        norm_num [subAuthArgs, mandateAction]
      | ok sig =>
        simp only [hr] at ha
        have ha2 := executeSubscriptionChunk_authArgs env w pk cid
            (PubKey.base58 PAYMASTER_PAYER_KORA)
            (mandateAction ix (now + 30 * 24 * 60 * 60)) nowChunk a ha
        subst ha2
        norm_num [subAuthArgs, mandateAction]
  · intro sig h
    simp only [createMandate, eq_self_iff_true, not_true, if_true] at h ⊢
    cases hix : createUsdcTransferIx w (PubKey.base58 MERCHANT_WALLET)
        plan.price with
    | error e =>
      simp only [hix] at h
      simp at h
    | ok ix =>
      simp only [hix] at h ⊢
      cases hr : (executeSubscriptionChunk env w pk cid
          (PubKey.base58 PAYMASTER_PAYER_KORA)
          (mandateAction ix (now + 30 * 24 * 60 * 60)) nowChunk).2 with
      | error e =>
        simp only [hr] at h
        simp at h
      | ok sig2 =>
        simp only [hr] at h ⊢
        simp [setPlanState]

/-- Witness for C3: at the concrete successful run, a plan with a rewritten
interval gives the identical run, the authorization action carries
expiration `1000 + 2592000`, and that value is stored. -/
theorem createMandate_expiration_thirty_days_witness :
    (createMandate okEnv true wallet0 [1, 2] "cred-id" 1000 1001
        emptyPlanStates { basicPlan with intervalDays := 77 } =
      createMandate okEnv true wallet0 [1, 2] "cred-id" 1000 1001
        emptyPlanStates basicPlan) ∧
    (subAuthArgs wallet0 [1, 2] "cred-id" koraPayer
        (mandateAction sampleIx 2593000) 1001).action.args.expiresAt =
      1000 + 2592000 ∧
    ((createMandate okEnv true wallet0 [1, 2] "cred-id" 1000 1001
        emptyPlanStates basicPlan).planStates basicPlan.id).expiresAt =
      some (1000 + 2592000) := by
  have happ := createMandate_expiration_thirty_days okEnv wallet0 [1, 2]
      "cred-id" 1000 1001 emptyPlanStates basicPlan
  refine ⟨happ.1 77, happ.2.1 _ ?_, happ.2.2 "sent:chunk-txn"
      createMandate_ok_outcome_eval⟩
  rw [createMandate_ok_trace_eval]
  simp [authArgsOfTrace]

/-- Helper: a successful `createUsdcTransferIx` always yields the fully
determined checked-transfer record for its inputs. -/
theorem createUsdcTransferIx_shape (owner recipient : PubKey) (amount : ℚ)
    (ix : TransferCheckedIx)
    (h : createUsdcTransferIx owner recipient amount = Except.ok ix) :
    ∃ amt, toTokenAmount amount 6 = Except.ok amt ∧
      ix = { source := PubKey.ata (PubKey.base58 USDC_MINT) owner,
             mint := PubKey.base58 USDC_MINT,
             dest := PubKey.ata (PubKey.base58 USDC_MINT) recipient,
             owner := owner, amount := amt, decimals := 6 } := by
  cases ht : toTokenAmount amount 6 with
  | error e =>
    simp [createUsdcTransferIx, ht, getAssociatedTokenAddress, Except.map] at h
  | ok amt =>
    refine ⟨amt, rfl, ?_⟩
    simp [createUsdcTransferIx, ht, getAssociatedTokenAddress, Except.map] at h
    exact h.symm

/-- Helper: the `executePayment` call-kind trace is always a prefix of
`executeChunkTxn` then `paymasterSignAndSend`. -/
theorem executePayment_trace_kinds (env : SdkEnv) (w : PubKey)
    (ps : PlanStates) (plan : Plan) :
    (executePayment env true w ps plan).trace.map eventKind <+:
      [EventKind.executeChunk, EventKind.paymasterSend] := by
  simp only [executePayment, eq_self_iff_true, not_true, if_true]
  cases hix : createUsdcTransferIx w (PubKey.base58 MERCHANT_WALLET)
      plan.price with
  | error e => exact ⟨[EventKind.executeChunk, EventKind.paymasterSend], rfl⟩
  | ok ix =>
    dsimp only
    cases he1 : env.executeChunkTxn (payChunkArgs w ix) 300000 with
    | error e => exact ⟨[EventKind.paymasterSend], rfl⟩
    | ok txn =>
      dsimp only
      cases he2 : env.paymasterSignAndSend PAYMASTER_URL txn with
      | error e => exact ⟨[], rfl⟩
      | ok sig => exact ⟨[], rfl⟩

/-- Helper: any `executeChunkTxn` request in an `executePayment` trace is
the signature-free request over the rebuilt USDC instruction. -/
theorem executePayment_executeArgs (env : SdkEnv) (w : PubKey)
    (ps : PlanStates) (plan : Plan) (ea : ChunkTxnArgs)
    (hea : ea ∈ executeArgsOfTrace (executePayment env true w ps plan).trace) :
    ∃ ix, createUsdcTransferIx w (PubKey.base58 MERCHANT_WALLET) plan.price =
        Except.ok ix ∧ ea = payChunkArgs w ix := by
  simp only [executePayment, eq_self_iff_true, not_true, if_true] at hea
  cases hix : createUsdcTransferIx w (PubKey.base58 MERCHANT_WALLET)
      plan.price with
  | error e =>
    simp only [hix] at hea
    simp [executeArgsOfTrace] at hea
  | ok ix =>
    simp only [hix] at hea
    cases he1 : env.executeChunkTxn (payChunkArgs w ix) 300000 with
    | error e =>
      simp only [he1] at hea
      simp [executeArgsOfTrace] at hea
      exact ⟨ix, rfl, hea⟩
    | ok txn =>
      simp only [he1] at hea
      cases he2 : env.paymasterSignAndSend PAYMASTER_URL txn with
      | error e =>
        simp only [he2] at hea
        simp [executeArgsOfTrace] at hea
        exact ⟨ix, rfl, hea⟩
      | ok sig =>
        simp only [he2] at hea
        simp [executeArgsOfTrace] at hea
        exact ⟨ix, rfl, hea⟩

/-- Helper: the SDK calls and the outcome of `executePayment` do not depend
on the stored per-plan state at all (in particular, no stored expiration is
consulted). -/
theorem executePayment_state_independent (env : SdkEnv) (w : PubKey)
    (ps ps2 : PlanStates) (plan : Plan) :
    (executePayment env true w ps2 plan).trace =
      (executePayment env true w ps plan).trace ∧
    (executePayment env true w ps2 plan).outcome =
      (executePayment env true w ps plan).outcome := by
  simp only [executePayment, eq_self_iff_true, not_true, if_true]
  cases hix : createUsdcTransferIx w (PubKey.base58 MERCHANT_WALLET)
      plan.price with
  | error e => exact ⟨rfl, rfl⟩
  | ok ix =>
    dsimp only
    cases he1 : env.executeChunkTxn (payChunkArgs w ix) 300000 with
    | error e => exact ⟨rfl, rfl⟩
    | ok txn =>
      dsimp only
      cases he2 : env.paymasterSignAndSend PAYMASTER_URL txn with
      | error e => exact ⟨rfl, rfl⟩
      | ok sig => exact ⟨rfl, rfl⟩

/-- Helper: any `createChunkTxn` request in a `createMandate` trace carries
exactly the singleton list of the rebuilt USDC instruction. -/
theorem createMandate_createArgs (env : SdkEnv) (w : PubKey) (pk : List ℕ)
    (cid : String) (now nowChunk : ℤ) (ps : PlanStates) (plan : Plan)
    (ca : ChunkTxnArgs)
    (hca : ca ∈ createArgsOfTrace
      (createMandate env true w pk cid now nowChunk ps plan).trace) :
    ∃ ix, createUsdcTransferIx w (PubKey.base58 MERCHANT_WALLET) plan.price =
        Except.ok ix ∧ ca.cpiInstructions = [ix] := by
  simp only [createMandate, eq_self_iff_true, not_true, if_true] at hca
  cases hix : createUsdcTransferIx w (PubKey.base58 MERCHANT_WALLET)
      plan.price with
  | error e =>
    simp only [hix] at hca
    simp [createArgsOfTrace] at hca
  | ok ix =>
    simp only [hix] at hca
    cases hr : (executeSubscriptionChunk env w pk cid
        (PubKey.base58 PAYMASTER_PAYER_KORA)
        (mandateAction ix (now + 30 * 24 * 60 * 60)) nowChunk).2 with
    | error e =>
      simp only [hr] at hca
      have h2 := executeSubscriptionChunk_createArgs env w pk cid
          (PubKey.base58 PAYMASTER_PAYER_KORA)
          (mandateAction ix (now + 30 * 24 * 60 * 60)) nowChunk ca hca
      exact ⟨ix, rfl, h2.1⟩
    | ok sig =>
      simp only [hr] at hca
      have h2 := executeSubscriptionChunk_createArgs env w pk cid
          (PubKey.base58 PAYMASTER_PAYER_KORA)
          (mandateAction ix (now + 30 * 24 * 60 * 60)) nowChunk ca hca
      exact ⟨ix, rfl, h2.1⟩

/-- C2: `executePayment` reconstructs a transfer instruction equal to the
one authorized at mandate creation (same owner wallet, same merchant
recipient, the plan price converted with 6 decimals), consults no stored
state before executing (in particular, no client-side expiration check: its
calls and outcome are identical for any stored per-plan state), and calls
`executeChunkTxn` with no passkey signature in its request, before handing
the resulting transaction to the paymaster's `signAndSend`. -/
theorem executePayment_reconstruction (envC envE : SdkEnv) (w : PubKey)
    (pk : List ℕ) (cid : String) (now nowChunk : ℤ) (ps psE : PlanStates)
    (plan : Plan) :
    ((executePayment envE true w psE plan).trace.map eventKind <+:
      [EventKind.executeChunk, EventKind.paymasterSend]) ∧
    (∀ ea ∈ executeArgsOfTrace (executePayment envE true w psE plan).trace,
      ea.passkeySignature = none ∧
      ∃ amt, toTokenAmount plan.price 6 = Except.ok amt ∧
        ea.cpiInstructions =
          [{ source := PubKey.ata (PubKey.base58 USDC_MINT) w,
             mint := PubKey.base58 USDC_MINT,
             dest := PubKey.ata (PubKey.base58 USDC_MINT)
               (PubKey.base58 MERCHANT_WALLET),
             owner := w, amount := amt, decimals := 6 }]) ∧
    (∀ ea ∈ executeArgsOfTrace (executePayment envE true w psE plan).trace,
      ∀ ca ∈ createArgsOfTrace
          (createMandate envC true w pk cid now nowChunk ps plan).trace,
        ea.cpiInstructions = ca.cpiInstructions) ∧
    (∀ ps2, (executePayment envE true w ps2 plan).trace =
        (executePayment envE true w psE plan).trace ∧
      (executePayment envE true w ps2 plan).outcome =
        (executePayment envE true w psE plan).outcome) := by
  refine ⟨executePayment_trace_kinds envE w psE plan, ?_, ?_, fun ps2 =>
      executePayment_state_independent envE w psE ps2 plan⟩
  · intro ea hea
    obtain ⟨ix, hix, rfl⟩ := executePayment_executeArgs envE w psE plan ea hea
    obtain ⟨amt, hamt, hshape⟩ := createUsdcTransferIx_shape w
        (PubKey.base58 MERCHANT_WALLET) plan.price ix hix
    refine ⟨rfl, amt, hamt, ?_⟩
    rw [hshape]
    rfl
  · intro ea hea ca hca
    obtain ⟨ix, hix, rfl⟩ := executePayment_executeArgs envE w psE plan ea hea
    obtain ⟨ix2, hix2, hca2⟩ := createMandate_createArgs envC w pk cid now
        nowChunk ps plan ca hca
    rw [hix] at hix2
    cases hix2
    rw [hca2]
    rfl

/-- Fixture evaluation: the all-resolving concrete `executePayment` run
succeeds with the paymaster's signature over the execute transaction. -/
theorem executePayment_ok_outcome_eval :
    (executePayment okEnv true wallet0 subscribedPlanStates
        basicPlan).outcome = RunOutcome.succeeded "sent:exec-txn" := by
  have hb : createUsdcTransferIx wallet0 (PubKey.base58 MERCHANT_WALLET)
      basicPlan.price = Except.ok sampleIx := createUsdcTransferIx_basic
  simp only [executePayment, eq_self_iff_true, not_true, if_true, hb]
  rfl

/-- Fixture evaluation: the SDK calls of the all-resolving concrete
`executePayment` run. -/
theorem executePayment_ok_trace_eval :
    (executePayment okEnv true wallet0 subscribedPlanStates basicPlan).trace =
      [SdkEvent.executeChunkTxn (payChunkArgs wallet0 sampleIx) 300000,
       SdkEvent.paymasterSignAndSend PAYMASTER_URL { raw := "exec-txn" }] := by
  have hb : createUsdcTransferIx wallet0 (PubKey.base58 MERCHANT_WALLET)
      basicPlan.price = Except.ok sampleIx := createUsdcTransferIx_basic
  simp only [executePayment, eq_self_iff_true, not_true, if_true, hb]
  rfl

/-- Witness for C2: at the concrete runs, the execute request has no
passkey signature and carries the same singleton instruction list as the
concrete mandate-creation request, and the run is unchanged over a
different stored state. -/
theorem executePayment_reconstruction_witness :
    ((executePayment okEnv true wallet0 subscribedPlanStates
        basicPlan).trace.map eventKind <+:
      [EventKind.executeChunk, EventKind.paymasterSend]) ∧
    ((payChunkArgs wallet0 sampleIx).passkeySignature = none ∧
      ∃ amt, toTokenAmount basicPlan.price 6 = Except.ok amt ∧
        (payChunkArgs wallet0 sampleIx).cpiInstructions =
          [{ source := PubKey.ata (PubKey.base58 USDC_MINT) wallet0,
             mint := PubKey.base58 USDC_MINT,
             dest := PubKey.ata (PubKey.base58 USDC_MINT)
               (PubKey.base58 MERCHANT_WALLET),
             owner := wallet0, amount := amt, decimals := 6 }]) ∧
    ((payChunkArgs wallet0 sampleIx).cpiInstructions =
      (subChunkArgs wallet0 [1, 2] "cred-id" koraPayer
        (mandateAction sampleIx 2593000) 1001 okSignResult).cpiInstructions) ∧
    ((executePayment okEnv true wallet0 emptyPlanStates basicPlan).trace =
      (executePayment okEnv true wallet0 subscribedPlanStates basicPlan).trace) := by
  have happ := executePayment_reconstruction okEnv okEnv wallet0 [1, 2]
      "cred-id" 1000 1001 emptyPlanStates subscribedPlanStates basicPlan
  have hea : payChunkArgs wallet0 sampleIx ∈ executeArgsOfTrace
      (executePayment okEnv true wallet0 subscribedPlanStates basicPlan).trace := by
    rw [executePayment_ok_trace_eval]
    simp [executeArgsOfTrace]
  have hca : subChunkArgs wallet0 [1, 2] "cred-id" koraPayer
      (mandateAction sampleIx 2593000) 1001 okSignResult ∈ createArgsOfTrace
      (createMandate okEnv true wallet0 [1, 2] "cred-id" 1000 1001
        emptyPlanStates basicPlan).trace := by
    rw [createMandate_ok_trace_eval]
    simp [createArgsOfTrace]
  exact ⟨happ.1, happ.2.1 _ hea, happ.2.2.1 _ hea _ hca,
    (happ.2.2.2 emptyPlanStates).1⟩

/-- C9: when `executePayment` succeeds for a plan, it overwrites that plan's
stored `mandateSignature` with the execution transaction's signature (the
creation signature is discarded) and clears `isExecuting`, while `expiresAt`
and `showExecuteButton` are left unchanged and every other plan's state is
untouched. -/
theorem executePayment_success_overwrite (env : SdkEnv) (w : PubKey)
    (ps : PlanStates) (plan : Plan) (sig : String)
    (h : (executePayment env true w ps plan).outcome =
      RunOutcome.succeeded sig) :
    (executePayment env true w ps plan).planStates plan.id =
      { ps plan.id with isExecuting := false,
                        mandateSignature := some sig } ∧
    ((executePayment env true w ps plan).planStates plan.id).expiresAt =
      (ps plan.id).expiresAt ∧
    ((executePayment env true w ps plan).planStates plan.id).showExecuteButton =
      (ps plan.id).showExecuteButton ∧
    (∀ k, k ≠ plan.id →
      (executePayment env true w ps plan).planStates k = ps k) := by
  simp only [executePayment, eq_self_iff_true, not_true, if_true] at h ⊢
  cases hix : createUsdcTransferIx w (PubKey.base58 MERCHANT_WALLET)
      plan.price with
  | error e =>
    simp only [hix] at h
    simp at h
  | ok ix =>
    simp only [hix] at h ⊢
    cases he1 : env.executeChunkTxn (payChunkArgs w ix) 300000 with
    | error e =>
      simp only [he1] at h
      simp at h
    | ok txn =>
      simp only [he1] at h ⊢
      cases he2 : env.paymasterSignAndSend PAYMASTER_URL txn with
      | error e =>
        simp only [he2] at h
        simp at h
      | ok sig2 =>
        simp only [he2] at h ⊢
        simp only [RunOutcome.succeeded.injEq] at h
        subst h
        refine ⟨?_, ?_, ?_, ?_⟩
        · simp [setPlanState]
        · simp [setPlanState]
        · simp [setPlanState]
        · intro k hk
          simp [setPlanState, hk]

/-- Witness for C9: the concrete successful payment replaces the stored
creation signature `"creation-sig"` with the execution signature while the
stored expiration and execute flag survive. -/
theorem executePayment_success_overwrite_witness :
    (executePayment okEnv true wallet0 subscribedPlanStates
        basicPlan).planStates basicPlan.id =
      { subscribedPlanStates basicPlan.id with
          isExecuting := false, mandateSignature := some "sent:exec-txn" } ∧
    ((executePayment okEnv true wallet0 subscribedPlanStates
        basicPlan).planStates basicPlan.id).expiresAt =
      (subscribedPlanStates basicPlan.id).expiresAt ∧
    ((executePayment okEnv true wallet0 subscribedPlanStates
        basicPlan).planStates basicPlan.id).showExecuteButton =
      (subscribedPlanStates basicPlan.id).showExecuteButton := by
  have happ := executePayment_success_overwrite okEnv wallet0
      subscribedPlanStates basicPlan "sent:exec-txn"
      executePayment_ok_outcome_eval
  exact ⟨happ.1, happ.2.1, happ.2.2.1⟩
